import Mathlib

/-!
Verification of the loan core of the cyan-finance-backend repository.

The development shallowly embeds the financial state machine of
`src/models/Loan.js` (the pre-save amortization/schedule hook, the
`recordPayment` method and the `calculateEarlyRepaymentAmount` method)
together with the relevant route-level logic of `src/routes/loans.js`
(payment validation and loan-id generation) and `src/routes/admin.js`
(admin loan creation).

Modelling conventions:
* JavaScript numbers are modelled as `ℚ`.  The one place where the
  JavaScript computation leaves the rationals is the division
  `(p * r * (1+r)^n) / ((1+r)^n - 1)` when the denominator is zero
  (JavaScript produces `NaN` there); the embedding returns `none` in
  that case.
* JavaScript `Date` values are modelled by their two facets actually
  used by the code: an epoch-milliseconds integer (used by date
  subtraction in `calculateEarlyRepaymentAmount`) and a calendar triple
  `(year, month 0-11, day)` (used by `setMonth` in the schedule
  generator).
* Thrown errors become `Except.error`; since the embedding is purely
  functional, an error result carries no updated state, which models
  the fact that a thrown error leaves the document unchanged.
* The JS installment status string `'partial'` is modelled by the
  constructor `partpaid` (the literal word cannot be used as a Lean
  identifier here), `'pending'` by `pending`, `'paid'` by `paid`.
-/

namespace CyanFinance

/-- Installment status, from the enum `['pending', 'partial', 'paid']`
in `src/models/Loan.js` (`partpaid` stands for the JS string `'partial'`). -/
inductive InstStatus where
  | pending
  | partpaid
  | paid
deriving DecidableEq

/-- Payment method, from the enum `['handcash', 'online']`. -/
inductive PayMethod where
  | handcash
  | online
deriving DecidableEq

/-- Loan status, from the enum `['approved', 'rejected', 'active', 'closed']`. -/
inductive LoanStatus where
  | approved
  | rejected
  | active
  | closed
deriving DecidableEq

/-- Calendar facet of a JS `Date`: year, month (0-11 as in JS `getMonth`),
day of month (1-31). -/
structure CalDate where
  year : ℤ
  month : ℤ
  day : ℤ
deriving DecidableEq

/-- Gregorian leap-year rule used by JS `Date`. -/
def isLeapYear (y : ℤ) : Bool :=
  (y % 4 == 0 && y % 100 != 0) || (y % 400 == 0)

/-- Number of days of month `m` (0-indexed) of year `y`. -/
def daysInMonth (y m : ℤ) : ℤ :=
  if m = 1 then (if isLeapYear y then 29 else 28)
  else if m = 3 ∨ m = 5 ∨ m = 8 ∨ m = 10 then 30
  else 31

/-- JS `d.setMonth(d.getMonth() + 1)` on a normalised date: the month index
is incremented (carrying into the year), and a day-of-month that exceeds the
target month's length rolls over into the following month, exactly as the JS
`Date` normalisation does.  This is the date step of the schedule loop in
`loanSchema.pre('save')` (`src/models/Loan.js` line 201). -/
def addOneMonth (d : CalDate) : CalDate :=
  let m := d.month + 1
  let y := d.year + m / 12
  let m := m % 12
  if d.day ≤ daysInMonth y m then ⟨y, m, d.day⟩
  else
    let d2 := d.day - daysInMonth y m
    let m2 := m + 1
    ⟨y + m2 / 12, m2 % 12, d2⟩

/-- Modelled from the claim's words, for comparison with the code: the date
advanced by `k` whole calendar months in a single step (set the month index
to `month + k`, then apply the JS day-overflow normalisation).  Used only to
state how the spec describes due dates. -/
def advanceWholeMonths (d : CalDate) (k : ℤ) : CalDate :=
  let m := d.month + k
  let y := d.year + m / 12
  let m := m % 12
  if d.day ≤ daysInMonth y m then ⟨y, m, d.day⟩
  else
    let d2 := d.day - daysInMonth y m
    let m2 := m + 1
    ⟨y + m2 / 12, m2 % 12, d2⟩

/-- One scheduled installment, from the `installments` sub-schema of
`src/models/Loan.js`. -/
structure Installment where
  number : ℕ
  dueDate : CalDate
  amount : ℚ
  status : InstStatus
  amountPaid : ℚ
deriving DecidableEq

/-- One recorded payment, from `paymentSchema` in `src/models/Loan.js`
(the `date` field, defaulted to the processing time, plays no role in any
claim and is omitted). -/
structure PaymentRec where
  amount : ℚ
  method : PayMethod
  transactionId : Option String
  installmentNumber : ℕ
  remainingBalance : ℚ
deriving DecidableEq

/-- The loan aggregate, from `loanSchema` in `src/models/Loan.js`.
Customer-identity plumbing fields (name, addresses, gold items, ...) play no
role in the financial state machine and are omitted.  `createdAtMs` and
`createdAtCal` are the two facets of the JS `createdAt` date. -/
structure Loan where
  amount : ℚ
  term : ℕ
  interestRate : ℚ
  status : LoanStatus
  closedDate : Option ℤ
  monthlyPayment : ℚ
  totalPayment : ℚ
  installments : List Installment
  actualRepaymentDate : Option ℤ
  actualAmountPaid : ℚ
  remainingBalance : ℚ
  createdAtMs : ℤ
  createdAtCal : CalDate
  payments : List PaymentRec
  totalPaid : ℚ
  loanId : String
deriving DecidableEq

/-- The predicate of the `find` callback in `recordPayment`
(`src/models/Loan.js` lines 218-220): status `'pending'` or `'partial'`. -/
def isOpenInst (inst : Installment) : Bool :=
  inst.status == InstStatus.pending || inst.status == InstStatus.partpaid

/-- The installment mutation of `recordPayment` (`src/models/Loan.js` lines
227-232): apply `min(paymentAmount, amount - amountPaid)` and set the status
to `'paid'` if `amountPaid >= amount`, else `'partial'`. -/
def updInst (amt : ℚ) (inst : Installment) : Installment :=
  let remainingForInstallment := inst.amount - inst.amountPaid
  let appliedToInstallment := min amt remainingForInstallment
  let newPaid := inst.amountPaid + appliedToInstallment
  { inst with
    amountPaid := newPaid
    status := if inst.amount ≤ newPaid then InstStatus.paid else InstStatus.partpaid }

/-- `installments.find(...)` followed by the in-place mutation of the found
element: returns the updated list together with the updated installment, or
`none` when no installment has status `'pending'` or `'partial'`. -/
def allocate (amt : ℚ) : List Installment → Option (List Installment × Installment)
  | [] => none
  | inst :: rest =>
    if isOpenInst inst then
      let u := updInst amt inst
      some (u :: rest, u)
    else
      match allocate amt rest with
      | none => none
      | some (rest2, u) => some (inst :: rest2, u)

/-- The aggregate-total and closure part of `recordPayment`
(`src/models/Loan.js` lines 243-254): add the full payment amount to
`totalPaid`, subtract it from `remainingBalance`, append the payment record,
and, when the new remaining balance is `≤ 0`, set status `'closed'` and
stamp `closedDate`, `actualRepaymentDate` (both `new Date()`, modelled by
`now`) and `actualAmountPaid = totalPaid`. -/
def applyTotals (loan : Loan) (paymentAmount : ℚ) (insts : List Installment)
    (payment : PaymentRec) (now : ℤ) : Loan :=
  let newTotalPaid := loan.totalPaid + paymentAmount
  let newRemaining := loan.remainingBalance - paymentAmount
  let loan1 : Loan := { loan with
    installments := insts
    totalPaid := newTotalPaid
    remainingBalance := newRemaining
    payments := loan.payments ++ [payment] }
  if newRemaining ≤ 0 then
    { loan1 with
      status := LoanStatus.closed
      closedDate := some now
      actualRepaymentDate := some now
      actualAmountPaid := newTotalPaid }
  else loan1

/-- `loanSchema.methods.recordPayment` (`src/models/Loan.js` lines 216-258).
`now` models the processing time (`new Date()`).  The payment record
snapshots `remainingBalance - paymentAmount` before the totals are updated,
exactly as the source does. -/
def recordPayment (loan : Loan) (paymentAmount : ℚ) (paymentMethod : PayMethod)
    (transactionId : Option String) (now : ℤ) : Except String (Loan × PaymentRec) :=
  match allocate paymentAmount loan.installments with
  | none => Except.error "No pending installments found"
  | some (insts, cur) =>
    let payment : PaymentRec :=
      { amount := paymentAmount
        method := paymentMethod
        transactionId := transactionId
        installmentNumber := cur.number
        remainingBalance := loan.remainingBalance - paymentAmount }
    Except.ok (applyTotals loan paymentAmount insts payment now, payment)

/-- The schedule loop of `loanSchema.pre('save')` (`src/models/Loan.js`
lines 195-210): starting from the creation date, repeatedly add one month
and push an installment numbered `i` with the stepped date, amount `m`,
status `'pending'` and `amountPaid` 0. -/
def buildInstallments : CalDate → ℚ → ℕ → ℕ → List Installment
  | _, _, _, 0 => []
  | current, m, i, fuel + 1 =>
    let next := addOneMonth current
    { number := i, dueDate := next, amount := m, status := InstStatus.pending,
      amountPaid := 0 } :: buildInstallments next m (i + 1) fuel

/-- `loanSchema.pre('save')` for a new document (`src/models/Loan.js` lines
182-213): monthly rate `r = (interestRate/100)/12`, monthly payment
`p*r*(1+r)^n / ((1+r)^n - 1)`, total payment `monthlyPayment * n`,
`remainingBalance = totalPayment`, and the installment schedule.
There is no special case for `r = 0`: when the denominator `(1+r)^n - 1`
is zero the JS computation produces `NaN` (0/0); the embedding returns
`none` in that case. -/
def preSaveNew (loan : Loan) : Option Loan :=
  let r := loan.interestRate / 100 / 12
  let n := loan.term
  let p := loan.amount
  let denom := (1 + r) ^ n - 1
  if denom = 0 then none
  else
    let m := p * r * (1 + r) ^ n / denom
    let t := m * (n : ℚ)
    some { loan with
      monthlyPayment := m
      totalPayment := t
      remainingBalance := t
      installments := buildInstallments loan.createdAtCal m 1 n }

/-- JS `Math.round` for the non-negative arguments produced by the source:
round half up, i.e. `⌊q + 1/2⌋`. -/
def jsRound (q : ℚ) : ℤ := ⌊q + 1 / 2⌋

/-- `loanSchema.methods.calculateEarlyRepaymentAmount` (`src/models/Loan.js`
lines 261-279).  The month count divides the millisecond difference by
`1000*60*60*24*30.44` and takes the ceiling; `30.44` is written `3044/100`. -/
def calculateEarlyRepaymentAmount (loan : Loan) : ℚ :=
  match loan.actualRepaymentDate with
  | none => loan.remainingBalance
  | some endMs =>
    let monthsUsed : ℤ :=
      ⌈((endMs : ℚ) - (loan.createdAtMs : ℚ)) / (1000 * 60 * 60 * 24 * (3044 / 100))⌉
    let r := loan.interestRate / 100 / 12
    let p := loan.amount
    let interestForUsedMonths := p * r * (monthsUsed : ℚ)
    let totalAmountForUsedMonths := p + interestForUsedMonths
    ((jsRound (max (totalAmountForUsedMonths - loan.totalPaid) 0) : ℤ) : ℚ)

/-- The payment request body of `POST /api/loans/:id/payment`
(`src/routes/loans.js`).  `amount` is a JSON number (hence always passes the
route's `isNumeric` check); `paymentMethod` arrives as a raw string;
`transactionId` may be absent. -/
structure PaymentReq where
  amount : ℚ
  paymentMethod : String
  transactionId : Option String
deriving DecidableEq

/-- The express-validator chain of `POST /api/loans/:id/payment`
(`src/routes/loans.js` lines 141-144): `amount` must be numeric (always true
for a JSON number), `paymentMethod` must be `'handcash'` or `'online'`, and
`transactionId` must be non-empty when `paymentMethod` is `'online'`.
No positivity check is performed on `amount`. -/
def validatePaymentReq (req : PaymentReq) : Bool :=
  (req.paymentMethod == "handcash" || req.paymentMethod == "online")
    && (!(req.paymentMethod == "online")
        || (match req.transactionId with
            | some t => !(t == "")
            | none => false))

/-- Conversion of the validated method string to the enum. -/
def toPayMethod (s : String) : PayMethod :=
  if s = "online" then PayMethod.online else PayMethod.handcash

/-- Route-level error outcome of `POST /api/loans/:id/payment`:
a 400 with validation errors, or a 400/500 carrying an error message
(`'Loan is already closed'` from the route's own check, or the message of
the error thrown by `recordPayment`). -/
inductive RouteError where
  | validationError
  | invalidState (msg : String)
deriving DecidableEq

/-- The handler body of `POST /api/loans/:id/payment` (`src/routes/loans.js`
lines 141-164, expressed on an already-fetched loan): run the validators,
reject a closed loan, then delegate to `recordPayment`. -/
def postLoanPayment (loan : Loan) (req : PaymentReq) (now : ℤ) :
    Except RouteError (Loan × PaymentRec) :=
  if validatePaymentReq req = true then
    if loan.status = LoanStatus.closed then
      Except.error (RouteError.invalidState "Loan is already closed")
    else
      match recordPayment loan req.amount (toPayMethod req.paymentMethod)
          req.transactionId now with
      | Except.error msg => Except.error (RouteError.invalidState msg)
      | Except.ok result => Except.ok result
  else Except.error RouteError.validationError

/-- JS `String.prototype.padStart(2, '0')`. -/
def padStart2 (s : String) : String :=
  if s.length < 2 then String.mk (List.replicate (2 - s.length) '0') ++ s else s

/-- Loan-id generation of `POST /api/loans` (`src/routes/loans.js` lines
30-38) and `POST /api/admin/loans` (`src/routes/admin.js` lines 168-175):
`year = getFullYear() % 1000` (interpolated without padding), the 1-based
month padded to two digits, and `countDocuments` of the loans created in the
current calendar month plus one, padded to two digits. -/
def generateLoanId (fullYear : ℕ) (month0 : ℕ) (countThisMonth : ℕ) : String :=
  let year := fullYear % 1000
  let month := padStart2 (Nat.repr (month0 + 1))
  let loanCount := countThisMonth + 1
  "CY" ++ Nat.repr year ++ month ++ padStart2 (Nat.repr loanCount)

/-- The loan document assembled by `POST /api/admin/loans`
(`src/routes/admin.js` lines 178-197) just before `Loan.create`: the
caller-supplied `monthlyPayment` and `totalPayment` are forwarded into the
document, status is `'active'`, and the mongoose default of
`remainingBalance` evaluates `this.totalPayment`, i.e. the forwarded value.
`Loan.create` then runs `preSaveNew` on this document. -/
def mkAdminLoan (amount : ℚ) (term : ℕ) (interestRate : ℚ) (createdAtCal : CalDate)
    (createdAtMs : ℤ) (loanId : String) (monthlyPayment totalPayment : ℚ) : Loan :=
  { amount := amount
    term := term
    interestRate := interestRate
    status := LoanStatus.active
    closedDate := none
    monthlyPayment := monthlyPayment
    totalPayment := totalPayment
    installments := []
    actualRepaymentDate := none
    actualAmountPaid := 0
    remainingBalance := totalPayment
    createdAtMs := createdAtMs
    createdAtCal := createdAtCal
    payments := []
    totalPaid := 0
    loanId := loanId }

/-- A small concrete active loan with a single pending installment of 100,
used to evaluate the payment operations on concrete inputs. -/
def sampleLoan : Loan :=
  { amount := 1000
    term := 1
    interestRate := 12
    status := LoanStatus.active
    closedDate := none
    monthlyPayment := 100
    totalPayment := 100
    installments := [⟨1, ⟨2024, 1, 15⟩, 100, InstStatus.pending, 0⟩]
    actualRepaymentDate := none
    actualAmountPaid := 0
    remainingBalance := 100
    createdAtMs := 0
    createdAtCal := ⟨2024, 0, 15⟩
    payments := []
    totalPaid := 0
    loanId := "CY240101" }

/-- A payment request with a negative amount: numeric, hence accepted by the
route validators. -/
def negReq : PaymentReq := { amount := -5, paymentMethod := "handcash", transactionId := none }

/-- The payment record produced by applying the negative payment -5 on
`sampleLoan`. -/
def negPayment : PaymentRec :=
  { amount := -5, method := PayMethod.handcash, transactionId := none,
    installmentNumber := 1, remainingBalance := 105 }

/-- The state of `sampleLoan` after the negative payment -5 is applied: the
installment's paid amount drops to -5 (status `'partial'`), `totalPaid`
drops to -5 and `remainingBalance` rises to 105. -/
def negLoanResult : Loan :=
  { sampleLoan with
    installments := [⟨1, ⟨2024, 1, 15⟩, 100, InstStatus.partpaid, -5⟩]
    remainingBalance := 105
    payments := [negPayment]
    totalPaid := -5 }

/-- A payment request for the full installment amount of `sampleLoan`. -/
def fullReq : PaymentReq := { amount := 100, paymentMethod := "handcash", transactionId := none }

/-- The payment record produced by paying 100 on `sampleLoan`. -/
def samplePayment : PaymentRec :=
  { amount := 100, method := PayMethod.handcash, transactionId := none,
    installmentNumber := 1, remainingBalance := 0 }

/-- The state of `sampleLoan` after paying 100 at time 5: installment paid,
loan closed. -/
def sampleLoanPaid : Loan :=
  { sampleLoan with
    status := LoanStatus.closed
    closedDate := some 5
    actualRepaymentDate := some 5
    actualAmountPaid := 100
    installments := [⟨1, ⟨2024, 1, 15⟩, 100, InstStatus.paid, 100⟩]
    remainingBalance := 0
    payments := [samplePayment]
    totalPaid := 100 }

/-- A loan created on 2024-01-31 (day 31 triggers the JS `setMonth`
day-overflow rollover) with a 2-month term. -/
def cexLoan : Loan :=
  { sampleLoan with
    amount := 1200
    interestRate := 12
    term := 2
    createdAtCal := ⟨2024, 0, 31⟩ }

/-- `sampleLoan` with an actual repayment date exactly 3 average months
(3 × 2630016000 ms) after creation. -/
def earlyLoan : Loan := { sampleLoan with actualRepaymentDate := some 7890048000 }

/-- A loan with interest rate 0: the legal minimum of the schema
(`min: [0, 'Interest rate cannot be negative']`). -/
def zeroRateLoan : Loan :=
  { sampleLoan with
    amount := 1200
    interestRate := 0
    term := 12 }

/-- `sampleLoan` with its only installment fully paid while the loan status
is still `'active'`. -/
def allPaidLoan : Loan :=
  { sampleLoan with
    installments := [⟨1, ⟨2024, 1, 15⟩, 100, InstStatus.paid, 100⟩] }

/-- `sampleLoan` already closed. -/
def closedLoan : Loan := { sampleLoan with status := LoanStatus.closed }

theorem allocate_eq_none (amt : ℚ) : ∀ l : List Installment,
    (∀ i ∈ l, isOpenInst i = false) → allocate amt l = none := by
  intro l
  induction l with
  | nil => intro _; rfl
  | cons a t ih =>
    intro h
    have ha : isOpenInst a = false := h a (List.mem_cons_self a t)
    have ht := ih (fun i hi => h i (List.mem_cons_of_mem a hi))
    simp [allocate, ha, ht]

theorem allocate_some_spec (amt : ℚ) : ∀ (l l2 : List Installment) (u : Installment),
    allocate amt l = some (l2, u) →
    ∃ (k : ℕ) (cur : Installment), l[k]? = some cur ∧ isOpenInst cur = true ∧
      (∀ j, j < k → ∀ ij, l[j]? = some ij → isOpenInst ij = false) ∧
      u = updInst amt cur ∧ l2 = l.set k u := by
  intro l
  induction l with
  | nil => intro l2 u h; simp [allocate] at h
  | cons a t ih =>
    intro l2 u h
    by_cases ha : isOpenInst a = true
    · simp only [allocate, ha, if_true, Option.some.injEq, Prod.mk.injEq] at h
      obtain ⟨h1, h2⟩ := h
      refine ⟨0, a, by simp, ha, ?_, h2.symm, ?_⟩
      · intro j hj; omega
      · rw [← h1, ← h2]
        rfl
    · have ha' : isOpenInst a = false := by simpa using ha
      cases hres : allocate amt t with
      | none => simp [allocate, ha', hres] at h
      | some p =>
        obtain ⟨t2, u2⟩ := p
        simp only [allocate, ha', Bool.false_eq_true, if_false, hres, Option.some.injEq,
          Prod.mk.injEq] at h
        obtain ⟨h1, h2⟩ := h
        obtain ⟨k, cur, hget, hopen, hbefore, hu, hset⟩ := ih t2 u2 hres
        refine ⟨k + 1, cur, ?_, hopen, ?_, ?_, ?_⟩
        · simpa using hget
        · intro j hj ij hij
          cases j with
          | zero =>
            simp only [List.getElem?_cons_zero, Option.some.injEq] at hij
            rw [← hij]; exact ha'
          | succ j2 =>
            simp only [List.getElem?_cons_succ] at hij
            exact hbefore j2 (by omega) ij hij
        · rw [← h2]; exact hu
        · rw [← h1, hset, ← h2, List.set_cons_succ]

theorem applyTotals_spec (loan : Loan) (amt : ℚ) (insts : List Installment)
    (pay : PaymentRec) (now : ℤ) :
    (applyTotals loan amt insts pay now).totalPaid = loan.totalPaid + amt ∧
    (applyTotals loan amt insts pay now).remainingBalance = loan.remainingBalance - amt ∧
    (applyTotals loan amt insts pay now).installments = insts ∧
    (applyTotals loan amt insts pay now).totalPayment = loan.totalPayment ∧
    (applyTotals loan amt insts pay now).payments = loan.payments ++ [pay] := by
  simp only [applyTotals]
  split <;> exact ⟨rfl, rfl, rfl, rfl, rfl⟩

theorem applyTotals_closed (loan : Loan) (amt : ℚ) (insts : List Installment)
    (pay : PaymentRec) (now : ℤ) (h : loan.remainingBalance - amt ≤ 0) :
    (applyTotals loan amt insts pay now).status = LoanStatus.closed ∧
    (applyTotals loan amt insts pay now).closedDate = some now ∧
    (applyTotals loan amt insts pay now).actualRepaymentDate = some now ∧
    (applyTotals loan amt insts pay now).actualAmountPaid = loan.totalPaid + amt := by
  unfold applyTotals
  rw [if_pos h]
  exact ⟨rfl, rfl, rfl, rfl⟩

theorem applyTotals_not_closed (loan : Loan) (amt : ℚ) (insts : List Installment)
    (pay : PaymentRec) (now : ℤ) (h : ¬ loan.remainingBalance - amt ≤ 0) :
    (applyTotals loan amt insts pay now).status = loan.status := by
  unfold applyTotals
  rw [if_neg h]

theorem recordPayment_ok_spec {loan : Loan} {amt : ℚ} {m : PayMethod}
    {tid : Option String} {now : ℤ} {loan' : Loan} {pay : PaymentRec}
    (h : recordPayment loan amt m tid now = Except.ok (loan', pay)) :
    ∃ insts cur, allocate amt loan.installments = some (insts, cur) ∧
      pay = { amount := amt, method := m, transactionId := tid,
              installmentNumber := cur.number,
              remainingBalance := loan.remainingBalance - amt } ∧
      loan' = applyTotals loan amt insts pay now := by
  unfold recordPayment at h
  cases hres : allocate amt loan.installments with
  | none => rw [hres] at h; simp at h
  | some p =>
    obtain ⟨insts, cur⟩ := p
    rw [hres] at h
    simp only [Except.ok.injEq, Prod.mk.injEq] at h
    obtain ⟨h1, h2⟩ := h
    refine ⟨insts, cur, rfl, h2.symm, ?_⟩
    rw [← h1, ← h2]

theorem postLoanPayment_ok_spec {loan : Loan} {req : PaymentReq} {now : ℤ}
    {loan' : Loan} {pay : PaymentRec}
    (h : postLoanPayment loan req now = Except.ok (loan', pay)) :
    validatePaymentReq req = true ∧ loan.status ≠ LoanStatus.closed ∧
    recordPayment loan req.amount (toPayMethod req.paymentMethod) req.transactionId now =
      Except.ok (loan', pay) := by
  unfold postLoanPayment at h
  by_cases hv : validatePaymentReq req = true
  · rw [if_pos hv] at h
    by_cases hc : loan.status = LoanStatus.closed
    · rw [if_pos hc] at h; simp at h
    · rw [if_neg hc] at h
      cases hrec : recordPayment loan req.amount (toPayMethod req.paymentMethod)
          req.transactionId now with
      | error e => rw [hrec] at h; simp at h
      | ok r =>
        rw [hrec] at h
        simp only [Except.ok.injEq] at h
        exact ⟨hv, hc, by rw [h]⟩
  · rw [if_neg hv] at h; simp at h

/-- Claim C2: after any successful route-level payment, the loan's status is
`closed` iff its remaining balance is `≤ 0`, and when the closure branch
fires it sets the status to `closed` and stamps `closedDate`,
`actualRepaymentDate` and `actualAmountPaid = totalPaid`. -/
theorem claim_c2_closure_invariant (loan : Loan) (req : PaymentReq) (now : ℤ)
    (loan' : Loan) (pay : PaymentRec)
    (hok : postLoanPayment loan req now = Except.ok (loan', pay)) :
    (loan'.status = LoanStatus.closed ↔ loan'.remainingBalance ≤ 0) ∧
    (loan'.remainingBalance ≤ 0 →
      loan'.status = LoanStatus.closed ∧ loan'.closedDate = some now ∧
      loan'.actualRepaymentDate = some now ∧
      loan'.actualAmountPaid = loan'.totalPaid) := by
  obtain ⟨hv, hc, hrec⟩ := postLoanPayment_ok_spec hok
  obtain ⟨insts, cur, hres, hpay, hloan'⟩ := recordPayment_ok_spec hrec
  have hrem : loan'.remainingBalance = loan.remainingBalance - req.amount := by
    rw [hloan']; exact (applyTotals_spec loan req.amount insts _ now).2.1
  have htot : loan'.totalPaid = loan.totalPaid + req.amount := by
    rw [hloan']; exact (applyTotals_spec loan req.amount insts _ now).1
  by_cases hle : loan.remainingBalance - req.amount ≤ 0
  · obtain ⟨h1, h2, h3, h4⟩ := applyTotals_closed loan req.amount insts _ now hle
    refine ⟨⟨fun _ => by rw [hrem]; exact hle, fun _ => by rw [hloan']; exact h1⟩, fun _ => ?_⟩
    exact ⟨by rw [hloan']; exact h1, by rw [hloan']; exact h2, by rw [hloan']; exact h3,
      by rw [hloan', h4]; exact ((applyTotals_spec loan req.amount insts _ now).1).symm⟩
  · have hst : loan'.status = loan.status := by
      rw [hloan']; exact applyTotals_not_closed loan req.amount insts _ now hle
    refine ⟨⟨fun hcl => ?_, fun hle' => ?_⟩, fun hle' => ?_⟩
    · rw [hst] at hcl; exact absurd hcl hc
    · rw [hrem] at hle'; exact absurd hle' hle
    · rw [hrem] at hle'; exact absurd hle' hle

/-- Claim C2 witness: paying the full 100 on `sampleLoan` closes it; the
closure invariant holds on the resulting state. -/
theorem claim_c2_witness :
    (sampleLoanPaid.status = LoanStatus.closed ↔ sampleLoanPaid.remainingBalance ≤ 0) ∧
    (sampleLoanPaid.remainingBalance ≤ 0 →
      sampleLoanPaid.status = LoanStatus.closed ∧ sampleLoanPaid.closedDate = some 5 ∧
      sampleLoanPaid.actualRepaymentDate = some 5 ∧
      sampleLoanPaid.actualAmountPaid = sampleLoanPaid.totalPaid) :=
  claim_c2_closure_invariant sampleLoan fullReq 5 sampleLoanPaid samplePayment (by
    simp [postLoanPayment, validatePaymentReq, sampleLoan, fullReq, recordPayment, allocate,
      isOpenInst, updInst, applyTotals, toPayMethod, sampleLoanPaid, samplePayment])

/-- Claim C3: with no `actualRepaymentDate` the early-repayment quote is the
remaining balance; otherwise it is
`round(max(P + P*r*monthsUsed - totalPaid, 0))` with
`monthsUsed = ceil((actualRepaymentDate - createdAt) / (30.44 days))`, and
the result depends only on the dates, terms and totals (hence repeated calls
with unchanged state agree). -/
theorem claim_c3_early_repayment (loan : Loan) :
    (loan.actualRepaymentDate = none →
      calculateEarlyRepaymentAmount loan = loan.remainingBalance) ∧
    (∀ endMs : ℤ, loan.actualRepaymentDate = some endMs →
      calculateEarlyRepaymentAmount loan =
        ((jsRound (max (loan.amount + loan.amount * (loan.interestRate / 100 / 12) *
          ((⌈((endMs : ℚ) - (loan.createdAtMs : ℚ)) /
            (1000 * 60 * 60 * 24 * (3044 / 100))⌉ : ℤ) : ℚ) - loan.totalPaid) 0) : ℤ) : ℚ)) ∧
    (∀ loan2 : Loan, loan.actualRepaymentDate = loan2.actualRepaymentDate →
      loan.createdAtMs = loan2.createdAtMs → loan.interestRate = loan2.interestRate →
      loan.amount = loan2.amount → loan.totalPaid = loan2.totalPaid →
      loan.remainingBalance = loan2.remainingBalance →
      calculateEarlyRepaymentAmount loan = calculateEarlyRepaymentAmount loan2) := by
  refine ⟨?_, ?_, ?_⟩
  · intro h; simp [calculateEarlyRepaymentAmount, h]
  · intro endMs h; simp [calculateEarlyRepaymentAmount, h]
  · intro loan2 h1 h2 h3 h4 h5 h6
    unfold calculateEarlyRepaymentAmount
    rw [h1, h2, h3, h4, h5, h6]

/-- Claim C3 witness: on a loan of 1000 at 12%/yr repaid 3 average months
after creation, the early-repayment amount evaluates to 1030. -/
theorem claim_c3_witness : calculateEarlyRepaymentAmount earlyLoan = 1030 := by
  have h := (claim_c3_early_repayment earlyLoan).2.1 7890048000 rfl
  rw [h]
  norm_num [earlyLoan, sampleLoan, jsRound]

/-- Claim C6 (corrected): the route rejects with a validation error exactly
when the method/transaction-id validators fail; the amount plays no role in
validation.  A closed loan is rejected with the invalid-state message. -/
theorem claim_c6_amended (loan : Loan) (req : PaymentReq) (now : ℤ) :
    (postLoanPayment loan req now = Except.error RouteError.validationError ↔
      validatePaymentReq req = false) ∧
    (validatePaymentReq req = true → loan.status = LoanStatus.closed →
      postLoanPayment loan req now =
        Except.error (RouteError.invalidState "Loan is already closed")) := by
  constructor
  · constructor
    · intro h
      by_cases hv : validatePaymentReq req = true
      · exfalso
        unfold postLoanPayment at h
        rw [if_pos hv] at h
        by_cases hc : loan.status = LoanStatus.closed
        · rw [if_pos hc] at h; simp at h
        · rw [if_neg hc] at h
          cases hrec : recordPayment loan req.amount (toPayMethod req.paymentMethod)
              req.transactionId now with
          | error e => rw [hrec] at h; simp at h
          | ok r => rw [hrec] at h; simp at h
      · simpa using hv
    · intro h
      unfold postLoanPayment
      simp [h]
  · intro hv hc
    unfold postLoanPayment
    rw [if_pos hv, if_pos hc]

/-- Claim C6 witness: a valid request on an already-closed loan is rejected
with the invalid-state error. -/
theorem claim_c6_witness :
    postLoanPayment closedLoan fullReq 0 =
      Except.error (RouteError.invalidState "Loan is already closed") :=
  (claim_c6_amended closedLoan fullReq 0).2 (by decide) (by decide)

/-- Claim C6 counterexample: a payment with the negative amount -5 (numeric,
not positive) passes the route validators and is applied, refuting the
claim that a non-positive amount fails with a validation error. -/
theorem claim_c6_counterexample :
    negReq.amount < 0 ∧ (postLoanPayment sampleLoan negReq 0).toOption.isSome = true := by
  constructor
  · norm_num [negReq]
  · simp [postLoanPayment, validatePaymentReq, sampleLoan, negReq, recordPayment, allocate,
      isOpenInst, updInst, applyTotals, toPayMethod, Except.toOption]

/-- Claim C7 (corrected): every successful `recordPayment` changes
`totalPaid` by exactly the payment amount and `remainingBalance` by exactly
its negation, and so preserves `remainingBalance = totalPayment - totalPaid`;
`totalPaid` never decreases and `remainingBalance` never increases only when
the amount is positive (the code never checks this, so successful
negative-amount payments break monotonicity). -/
theorem claim_c7_monotonicity (loan : Loan) (amt : ℚ) (m : PayMethod) (tid : Option String)
    (now : ℤ) (loan' : Loan) (pay : PaymentRec)
    (hok : recordPayment loan amt m tid now = Except.ok (loan', pay)) :
    loan'.totalPaid = loan.totalPaid + amt ∧
    loan'.remainingBalance = loan.remainingBalance - amt ∧
    (0 < amt → loan.totalPaid ≤ loan'.totalPaid ∧
      loan'.remainingBalance ≤ loan.remainingBalance) ∧
    (loan.remainingBalance = loan.totalPayment - loan.totalPaid →
      loan'.remainingBalance = loan'.totalPayment - loan'.totalPaid) := by
  obtain ⟨insts, cur, hres, hpay, hloan'⟩ := recordPayment_ok_spec hok
  obtain ⟨e1, e2, e3, e4, e5⟩ := applyTotals_spec loan amt insts _ now
  rw [hloan']
  refine ⟨e1, e2, fun hpos => ⟨by rw [e1]; linarith, by rw [e2]; linarith⟩, ?_⟩
  intro hinv
  rw [e1, e2, e4, hinv]
  ring

/-- Claim C7 witness: paying 100 on `sampleLoan` adds 100 to `totalPaid`,
removes 100 from `remainingBalance` (monotonically, since 100 > 0), and
preserves the balance invariant. -/
theorem claim_c7_witness :
    sampleLoanPaid.totalPaid = sampleLoan.totalPaid + 100 ∧
    sampleLoanPaid.remainingBalance = sampleLoan.remainingBalance - 100 ∧
    ((0 : ℚ) < 100 → sampleLoan.totalPaid ≤ sampleLoanPaid.totalPaid ∧
      sampleLoanPaid.remainingBalance ≤ sampleLoan.remainingBalance) ∧
    (sampleLoan.remainingBalance = sampleLoan.totalPayment - sampleLoan.totalPaid →
      sampleLoanPaid.remainingBalance = sampleLoanPaid.totalPayment - sampleLoanPaid.totalPaid) :=
  claim_c7_monotonicity sampleLoan 100 PayMethod.handcash none 5 sampleLoanPaid samplePayment
    (by simp [sampleLoan, recordPayment, allocate, isOpenInst, updInst, applyTotals,
      sampleLoanPaid, samplePayment])

/-- Claim C7 counterexample: the route accepts the negative payment -5 on
`sampleLoan` (its validators never check positivity), the call succeeds,
and on it `totalPaid` decreases from 0 to -5 while `remainingBalance`
increases from 100 to 105, refuting the unconditional monotonicity of the
claim. -/
theorem claim_c7_counterexample :
    postLoanPayment sampleLoan negReq 0 = Except.ok (negLoanResult, negPayment) ∧
    negLoanResult.totalPaid < sampleLoan.totalPaid ∧
    sampleLoan.remainingBalance < negLoanResult.remainingBalance := by
  refine ⟨?_, by norm_num [negLoanResult, negPayment, sampleLoan],
    by norm_num [negLoanResult, negPayment, sampleLoan]⟩
  simp [postLoanPayment, validatePaymentReq, sampleLoan, negReq, recordPayment, allocate,
    isOpenInst, updInst, applyTotals, toPayMethod, negLoanResult, negPayment]
  norm_num [min_def]

/-- Claim C8: a validated payment on an open loan none of whose installments
is `'pending'` or `'partial'` is rejected with the error thrown by
`recordPayment`; the error result carries no updated state, so nothing is
changed. -/
theorem claim_c8_no_open_installment (loan : Loan) (req : PaymentReq) (now : ℤ)
    (hvalid : validatePaymentReq req = true)
    (hopen : loan.status ≠ LoanStatus.closed)
    (hnone : ∀ i ∈ loan.installments, isOpenInst i = false) :
    postLoanPayment loan req now =
      Except.error (RouteError.invalidState "No pending installments found") := by
  unfold postLoanPayment
  rw [if_pos hvalid, if_neg hopen]
  unfold recordPayment
  rw [allocate_eq_none req.amount loan.installments hnone]

/-- Claim C8 witness: a payment on the fully-paid-but-still-active
`allPaidLoan` is rejected with the no-pending-installments error. -/
theorem claim_c8_witness :
    postLoanPayment allPaidLoan fullReq 0 =
      Except.error (RouteError.invalidState "No pending installments found") :=
  claim_c8_no_open_installment allPaidLoan fullReq 0 (by decide) (by decide) (by decide)

/-- A 1200-at-12% one-month loan created 2024-01-15. -/
def witLoan : Loan :=
  { sampleLoan with
    amount := 1200
    term := 1 }

theorem buildInstallments_length (mval : ℚ) : ∀ (fuel i : ℕ) (cal : CalDate),
    (buildInstallments cal mval i fuel).length = fuel := by
  intro fuel
  induction fuel with
  | zero => intro i cal; rfl
  | succ f ih => intro i cal; simp [buildInstallments, ih]

theorem buildInstallments_getElem (mval : ℚ) : ∀ (fuel j i : ℕ) (cal : CalDate), j < fuel →
    (buildInstallments cal mval i fuel)[j]? =
      some { number := i + j, dueDate := addOneMonth^[j + 1] cal, amount := mval,
             status := InstStatus.pending, amountPaid := 0 } := by
  intro fuel
  induction fuel with
  | zero => intro j i cal h; omega
  | succ f ih =>
    intro j i cal h
    cases j with
    | zero =>
      simp [buildInstallments, Function.iterate_one]
    | succ j2 =>
      simp only [buildInstallments, List.getElem?_cons_succ]
      rw [ih j2 (i + 1) (addOneMonth cal) (by omega)]
      rw [← Function.iterate_succ_apply addOneMonth (j2 + 1) cal]
      rw [show i + 1 + j2 = i + (j2 + 1) from by omega]

theorem buildInstallments_map_amount (mval : ℚ) : ∀ (fuel i : ℕ) (cal : CalDate),
    (buildInstallments cal mval i fuel).map Installment.amount = List.replicate fuel mval := by
  intro fuel
  induction fuel with
  | zero => intro i cal; rfl
  | succ f ih => intro i cal; simp [buildInstallments, List.replicate_succ, ih]

theorem preSaveNew_isSome {loan : Loan} (hr : 0 < loan.interestRate) (hn : 1 ≤ loan.term) :
    ∃ loan', preSaveNew loan = some loan' := by
  have hr' : 0 < loan.interestRate / 100 / 12 := by positivity
  have hpow : 1 < (1 + loan.interestRate / 100 / 12) ^ loan.term :=
    one_lt_pow₀ (by linarith) (by omega)
  have hd : ¬ (1 + loan.interestRate / 100 / 12) ^ loan.term - 1 = 0 := by
    intro h0
    have h1 : (1 + loan.interestRate / 100 / 12) ^ loan.term = 1 := by linarith
    rw [h1] at hpow
    exact lt_irrefl 1 hpow
  exact ⟨_, by simp only [preSaveNew]; rw [if_neg hd]⟩

theorem preSaveNew_some_fields {loan loan' : Loan} (h : preSaveNew loan = some loan') :
    loan'.totalPayment = loan'.monthlyPayment * (loan.term : ℚ) ∧
    loan'.installments = buildInstallments loan.createdAtCal loan'.monthlyPayment 1 loan.term := by
  simp only [preSaveNew] at h
  by_cases hd : (1 + loan.interestRate / 100 / 12) ^ loan.term - 1 = 0
  · rw [if_pos hd] at h; exact absurd h (by simp)
  · rw [if_neg hd] at h
    simp only [Option.some.injEq] at h
    rw [← h]
    exact ⟨rfl, rfl⟩

/-- Claim C1: a successful `recordPayment` applies `min(amount, room)` to the
lowest-numbered `'pending'`/`'partial'` installment (given the schedule's
numbers are strictly increasing), marks it `'paid'` iff its paid amount
reaches its amount and `'partial'` otherwise, forwards nothing to any other
installment, and still adds the full payment amount to the aggregates. -/
theorem claim_c1_payment_allocation (loan : Loan) (amt : ℚ) (m : PayMethod)
    (tid : Option String) (now : ℤ) (loan' : Loan) (pay : PaymentRec)
    (hsorted : loan.installments.Pairwise (fun a b => a.number < b.number))
    (hok : recordPayment loan amt m tid now = Except.ok (loan', pay)) :
    ∃ (k : ℕ) (cur : Installment),
      loan.installments[k]? = some cur ∧
      isOpenInst cur = true ∧
      (∀ i ∈ loan.installments, isOpenInst i = true → cur.number ≤ i.number) ∧
      loan'.installments = loan.installments.set k (updInst amt cur) ∧
      (updInst amt cur).amountPaid = cur.amountPaid + min amt (cur.amount - cur.amountPaid) ∧
      (updInst amt cur).status =
        (if cur.amount ≤ cur.amountPaid + min amt (cur.amount - cur.amountPaid)
          then InstStatus.paid else InstStatus.partpaid) ∧
      (∀ j, j ≠ k → loan'.installments[j]? = loan.installments[j]?) ∧
      loan'.totalPaid = loan.totalPaid + amt ∧
      loan'.remainingBalance = loan.remainingBalance - amt := by
  obtain ⟨insts, cur0, hres, hpay, hloan'⟩ := recordPayment_ok_spec hok
  obtain ⟨k, cur, hget, hopen, hbefore, hu, hset⟩ := allocate_some_spec amt _ _ _ hres
  have hinsts : loan'.installments = loan.installments.set k (updInst amt cur) := by
    rw [hloan', (applyTotals_spec loan amt insts _ now).2.2.1, hset, hu]
  have hlowest : ∀ i ∈ loan.installments, isOpenInst i = true → cur.number ≤ i.number := by
    intro i hi hiopen
    obtain ⟨j, hj, hjeq⟩ := List.mem_iff_getElem.mp hi
    rcases lt_trichotomy j k with hlt | heq | hgt
    · have hjq : loan.installments[j]? = some i := by
        rw [List.getElem?_eq_getElem hj, hjeq]
      rw [hbefore j hlt i hjq] at hiopen
      exact absurd hiopen (by simp)
    · subst heq
      have hjq : loan.installments[j]? = some i := by
        rw [List.getElem?_eq_getElem hj, hjeq]
      rw [hget] at hjq
      simp only [Option.some.injEq] at hjq
      rw [hjq]
    · have hk : k < loan.installments.length := (List.getElem?_eq_some.mp hget).1
      have hcur : loan.installments[k] = cur := (List.getElem?_eq_some.mp hget).2
      have hlt2 := List.pairwise_iff_getElem.mp hsorted k j hk hj hgt
      rw [hcur, hjeq] at hlt2
      exact le_of_lt hlt2
  have hpaid : (updInst amt cur).amountPaid =
      cur.amountPaid + min amt (cur.amount - cur.amountPaid) := rfl
  have hstat : (updInst amt cur).status =
      (if cur.amount ≤ cur.amountPaid + min amt (cur.amount - cur.amountPaid)
        then InstStatus.paid else InstStatus.partpaid) := rfl
  have hunch : ∀ j, j ≠ k → loan'.installments[j]? = loan.installments[j]? := by
    intro j hj
    rw [hinsts, List.getElem?_set_ne (Ne.symm hj)]
  have htp : loan'.totalPaid = loan.totalPaid + amt := by
    rw [hloan']; exact (applyTotals_spec loan amt insts _ now).1
  have hrb : loan'.remainingBalance = loan.remainingBalance - amt := by
    rw [hloan']; exact (applyTotals_spec loan amt insts _ now).2.1
  exact ⟨k, cur, hget, hopen, hlowest, hinsts, hpaid, hstat, hunch, htp, hrb⟩

/-- Claim C1 witness: paying 100 on `sampleLoan` updates its single pending
installment to `'paid'` and adds 100 to the aggregates. -/
theorem claim_c1_witness :
    ∃ (k : ℕ) (cur : Installment),
      sampleLoan.installments[k]? = some cur ∧
      isOpenInst cur = true ∧
      (∀ i ∈ sampleLoan.installments, isOpenInst i = true → cur.number ≤ i.number) ∧
      sampleLoanPaid.installments = sampleLoan.installments.set k (updInst 100 cur) ∧
      (updInst 100 cur).amountPaid = cur.amountPaid + min 100 (cur.amount - cur.amountPaid) ∧
      (updInst 100 cur).status =
        (if cur.amount ≤ cur.amountPaid + min 100 (cur.amount - cur.amountPaid)
          then InstStatus.paid else InstStatus.partpaid) ∧
      (∀ j, j ≠ k → sampleLoanPaid.installments[j]? = sampleLoan.installments[j]?) ∧
      sampleLoanPaid.totalPaid = sampleLoan.totalPaid + 100 ∧
      sampleLoanPaid.remainingBalance = sampleLoan.remainingBalance - 100 :=
  claim_c1_payment_allocation sampleLoan 100 PayMethod.handcash none 5 sampleLoanPaid
    samplePayment (by simp [sampleLoan]) (by
      simp [sampleLoan, recordPayment, allocate, isOpenInst, updInst, applyTotals,
        sampleLoanPaid, samplePayment])

/-- Claim C4 (code bug): the pre-save amortization has no special case for a
zero interest rate; at `P = 1200, R = 0, n = 12` the denominator
`(1+r)^n - 1` is zero, the JS computation yields `NaN` (modelled `none`),
and no loan with `M = P/n = 100` is produced. -/
theorem claim_c4_zero_rate_bug :
    preSaveNew zeroRateLoan = none ∧
    zeroRateLoan.interestRate = 0 ∧
    zeroRateLoan.amount / (zeroRateLoan.term : ℚ) = 100 := by
  refine ⟨?_, rfl, by norm_num [zeroRateLoan, sampleLoan]⟩
  simp [preSaveNew, zeroRateLoan, sampleLoan]

/-- Claim C5 (corrected): for a new loan with positive rate and positive
term, the pre-save hook produces exactly `term` installments numbered
`1..term`, each with amount `monthlyPayment`, status `'pending'`, paid 0,
and the due date of the `j`-th installment is the creation date stepped
`j+1` times by the JS one-month increment (with day-overflow rollover); the
installment amounts sum exactly to `totalPayment`. -/
theorem claim_c5_amended (loan : Loan) (_hp : 100 ≤ loan.amount)
    (hr : 0 < loan.interestRate) (hn : 1 ≤ loan.term) :
    ∃ loan', preSaveNew loan = some loan' ∧
      loan'.installments.length = loan.term ∧
      (∀ j, j < loan.term →
        loan'.installments[j]? = some
          { number := j + 1
            dueDate := addOneMonth^[j + 1] loan.createdAtCal
            amount := loan'.monthlyPayment
            status := InstStatus.pending
            amountPaid := 0 }) ∧
      (loan'.installments.map Installment.amount).sum = loan'.totalPayment := by
  obtain ⟨loan', hsome⟩ := preSaveNew_isSome hr hn
  obtain ⟨htp, hinst⟩ := preSaveNew_some_fields hsome
  refine ⟨loan', hsome, ?_, ?_, ?_⟩
  · rw [hinst]; exact buildInstallments_length _ _ _ _
  · intro j hj
    rw [hinst, buildInstallments_getElem _ loan.term j 1 loan.createdAtCal hj]
    simp [Nat.add_comm]
  · rw [hinst, buildInstallments_map_amount, List.sum_replicate, nsmul_eq_mul, htp]
    exact mul_comm _ _

/-- Claim C5 witness: a 1200-at-12% one-month loan created 2024-01-15 gets
exactly one pending installment due one month later whose amount sums to
the total payment. -/
theorem claim_c5_witness :
    ∃ loan', preSaveNew witLoan = some loan' ∧
      loan'.installments.length = witLoan.term ∧
      (∀ j, j < witLoan.term →
        loan'.installments[j]? = some
          { number := j + 1
            dueDate := addOneMonth^[j + 1] witLoan.createdAtCal
            amount := loan'.monthlyPayment
            status := InstStatus.pending
            amountPaid := 0 }) ∧
      (loan'.installments.map Installment.amount).sum = loan'.totalPayment :=
  claim_c5_amended witLoan (by norm_num [witLoan, sampleLoan])
    (by norm_num [witLoan, sampleLoan]) (by norm_num [witLoan, sampleLoan])

/-- Claim C5 counterexample: for a loan created 2024-01-31, the code's
second due date is 2024-04-02 (iterated `setMonth` with rollover), whereas
the creation date advanced by 2 whole calendar months is 2024-03-31. -/
theorem claim_c5_counterexample :
    (preSaveNew cexLoan).map (fun l => l.installments.map Installment.dueDate) =
      some [⟨2024, 2, 2⟩, ⟨2024, 3, 2⟩] ∧
    advanceWholeMonths cexLoan.createdAtCal 2 = ⟨2024, 2, 31⟩ ∧
    (⟨2024, 3, 2⟩ : CalDate) ≠ ⟨2024, 2, 31⟩ := by
  refine ⟨?_, ?_, by decide⟩
  · simp [preSaveNew, cexLoan, sampleLoan, buildInstallments, addOneMonth, daysInMonth,
      isLeapYear]
    norm_num
  · simp [advanceWholeMonths, cexLoan, sampleLoan, daysInMonth, isLeapYear]

/-- Claim C9 (corrected): the generated loan id is the prefix `CY`, the year
modulo 1000 rendered without padding (two digits exactly when that value is
between 10 and 99, e.g. for 2010-2099), the 1-based month zero-padded to two
digits, and one plus the count of loans already created this month,
zero-padded to two digits. -/
theorem claim_c9_amended (fullYear month0 count : ℕ) (hm : month0 < 12) :
    generateLoanId fullYear month0 count =
      "CY" ++ Nat.repr (fullYear % 1000) ++ padStart2 (Nat.repr (month0 + 1)) ++
        padStart2 (Nat.repr (count + 1)) ∧
    (padStart2 (Nat.repr (month0 + 1))).length = 2 ∧
    (10 ≤ fullYear % 1000 → fullYear % 1000 ≤ 99 →
      (Nat.repr (fullYear % 1000)).length = 2) := by
  refine ⟨rfl, ?_, ?_⟩
  · interval_cases month0 <;> decide
  · intro h1 h2
    have hgen : ∀ v : Fin 100, 10 ≤ v.val → (Nat.repr v.val).length = 2 := by decide
    exact hgen ⟨fullYear % 1000, by omega⟩ h1

/-- Claim C9 witness: the 42nd loan of June 2024 gets id `CY240642`. -/
theorem claim_c9_witness :
    generateLoanId 2024 5 41 =
      "CY" ++ Nat.repr (2024 % 1000) ++ padStart2 (Nat.repr (5 + 1)) ++
        padStart2 (Nat.repr (41 + 1)) ∧
    (padStart2 (Nat.repr (5 + 1))).length = 2 ∧
    (10 ≤ 2024 % 1000 → 2024 % 1000 ≤ 99 → (Nat.repr (2024 % 1000)).length = 2) :=
  claim_c9_amended 2024 5 41 (by norm_num)

/-- Claim C9 counterexample: a loan created January 2005 gets id `CY50101`,
whose year component `5` has one digit, not two. -/
theorem claim_c9_counterexample :
    generateLoanId 2005 0 0 = "CY50101" ∧ (Nat.repr (2005 % 1000)).length = 1 :=
  ⟨by decide, by decide⟩

/-- Claim C10: the stored derived values are recomputed at save time from
`(amount, interestRate, term, createdAt)` alone; two admin creation requests
differing only in the forwarded `monthlyPayment`/`totalPayment` produce
identical saved loans. -/
theorem claim_c10_recompute (amount : ℚ) (term : ℕ) (interestRate : ℚ) (cal : CalDate)
    (ms : ℤ) (lid : String) (mp1 tp1 mp2 tp2 : ℚ) :
    preSaveNew (mkAdminLoan amount term interestRate cal ms lid mp1 tp1) =
      preSaveNew (mkAdminLoan amount term interestRate cal ms lid mp2 tp2) := by
  rfl

end CyanFinance
